import Mathlib

/-!
Verification development for the revsh-rs control program.

The definitions below are a shallow embedding of the Rust sources:
  - src/message.rs : the frame codec (`Message`, `Message::push`, `Message::pull`);
  - src/control.rs : the protocol handshake (`Control::negotiate_protocol`,
    `Control::handle_client`);
  - src/broker.rs  : the broker (`Broker::message_handler`,
    `Broker::stdin_handler`, `Broker::proxy_handler` and the frame builders).

Machine integers are modelled as `Nat` with explicit `% 65536` where the Rust
`u16` arithmetic can wrap; byte streams are `List Nat`; fallible operations
return `Except String`.
-/

set_option maxRecDepth 8000

/-- The `DataType` enum of src/message.rs. -/
inductive DataType where
  | Init
  | Tty
  | Winresize
  | Proxy
  | Connection
  | Nop
  | Error
  | Unknown
  deriving DecidableEq, Repr

/-- Wire value of a `DataType`, as in `DataType::value` (src/message.rs). -/
def DataType.value : DataType → Nat
  | .Init => 0
  | .Tty => 1
  | .Winresize => 2
  | .Proxy => 3
  | .Connection => 4
  | .Nop => 5
  | .Error => 6
  | .Unknown => 7

/-- The `From<u8> for DataType` conversion (src/message.rs). -/
def DataType.ofValue (n : Nat) : DataType :=
  if n = 0 then .Init
  else if n = 1 then .Tty
  else if n = 2 then .Winresize
  else if n = 3 then .Proxy
  else if n = 4 then .Connection
  else if n = 5 then .Nop
  else if n = 6 then .Error
  else .Unknown

/-- The `ProxyType` enum of src/message.rs. -/
inductive ProxyType where
  | Static
  | Dynamic
  | Tun
  | Tap
  deriving DecidableEq, Repr

/-- `ProxyType::value` (src/message.rs). -/
def ProxyType.value : ProxyType → Nat
  | .Static => 0
  | .Dynamic => 1
  | .Tun => 2
  | .Tap => 3

/-- The `ProxyHeaderType` enum of src/message.rs. -/
inductive ProxyHeaderType where
  | Create
  | Destroy
  | Report
  | Unknown
  deriving DecidableEq, Repr

/-- `ProxyHeaderType::value` (src/message.rs). -/
def ProxyHeaderType.value : ProxyHeaderType → Nat
  | .Create => 0
  | .Destroy => 1
  | .Report => 2
  | .Unknown => 3

/-- The `From<u16> for ProxyHeaderType` conversion (src/message.rs). -/
def ProxyHeaderType.ofValue (n : Nat) : ProxyHeaderType :=
  if n = 0 then .Create
  else if n = 1 then .Destroy
  else if n = 2 then .Report
  else .Unknown

/-- The `ConnectionHeaderType` enum of src/message.rs. -/
inductive ConnectionHeaderType where
  | Create
  | Destroy
  | Data
  | Dormant
  | Active
  | Unknown
  deriving DecidableEq, Repr

/-- `ConnectionHeaderType::value` (src/message.rs). -/
def ConnectionHeaderType.value : ConnectionHeaderType → Nat
  | .Create => 0
  | .Destroy => 1
  | .Data => 2
  | .Dormant => 3
  | .Active => 4
  | .Unknown => 5

/-- The `From<u16> for ConnectionHeaderType` conversion (src/message.rs). -/
def ConnectionHeaderType.ofValue (n : Nat) : ConnectionHeaderType :=
  if n = 0 then .Create
  else if n = 1 then .Destroy
  else if n = 2 then .Data
  else if n = 3 then .Dormant
  else if n = 4 then .Active
  else .Unknown

/-- The condition of src/message.rs lines 203-206 / 226-229 / 283-287: the
`header_proxy_type` field is written (and read) exactly when
`ProxyHeaderType::from(header_type)` is `Create` or `Report`, or
`ConnectionHeaderType::from(header_type)` is `Create`.  The comparisons are on
the raw `u16` value, independent of the frame's `data_type`. -/
def hasProxyTypeField (header_type : Nat) : Bool :=
  ProxyHeaderType.ofValue header_type == ProxyHeaderType.Create
    || ProxyHeaderType.ofValue header_type == ProxyHeaderType.Report
    || ConnectionHeaderType.ofValue header_type == ConnectionHeaderType.Create

/-- Whether a `data_type` carries the three-u16 subheader
(`DataType::Proxy | DataType::Connection` arms in push/pull). -/
def DataType.isSubheader : DataType → Bool
  | .Proxy => true
  | .Connection => true
  | _ => false

/-- The `Message` struct of src/message.rs.  `data` is the payload byte list;
the four `header_*` fields are `u16` in Rust, here `Nat` kept below 65536 by
`Message.wellFormed`. -/
structure Message where
  data_type : DataType
  data : List Nat
  header_type : Nat
  header_origin : Nat
  header_id : Nat
  header_proxy_type : Nat
  deriving DecidableEq, Repr

/-- `Message::new` (src/message.rs): all header fields zero, `Unknown` type. -/
def Message.new : Message :=
  { data_type := .Unknown, data := [], header_type := 0, header_origin := 0,
    header_id := 0, header_proxy_type := 0 }

/-- `u16::to_be_bytes`: big-endian bytes of a `u16` value. -/
def be16 (n : Nat) : List Nat :=
  [n / 256 % 256, n % 256]

/-- The `header_len` computed by `Message::push` (src/message.rs lines
197-211): base 3 = `size_of::<DataType>() + 2`; plus 6 for the subheader when
`data_type` is `Proxy` or `Connection`; plus 2 more when the
`header_proxy_type` condition holds. -/
def Message.headerLen (m : Message) : Nat :=
  3 + (if m.data_type.isSubheader then
        6 + (if hasProxyTypeField m.header_type then 2 else 0)
      else 0)

/-- The subheader bytes written by `Message::push` (src/message.rs lines
221-236): `header_type`, `header_origin`, `header_id` and conditionally
`header_proxy_type`, each as `u16` big-endian. -/
def Message.subheaderBytes (m : Message) : List Nat :=
  if m.data_type.isSubheader then
    be16 m.header_type ++ be16 m.header_origin ++ be16 m.header_id ++
      (if hasProxyTypeField m.header_type then be16 m.header_proxy_type else [])
  else []

/-- `Message::push` (src/message.rs lines 189-240), as the byte sequence the
frame writes to the stream.  The only failure is `data.len().try_into()?`
overflowing `u16` (payload over 65535 bytes); the model reports it up front
and produces bytes only on the fully successful path. -/
def Message.push (m : Message) : Except String (List Nat) :=
  if m.data.length > 65535 then Except.error "TryFromIntError"
  else
    Except.ok (be16 m.headerLen ++ [m.data_type.value] ++ be16 m.data.length ++
      m.subheaderBytes ++ m.data)

/-- The encoding of a frame with `pad.length` surplus header bytes injected
between the known header fields and the data, with `header_len` enlarged
accordingly: the forward-compatible wire form that `Message::pull` must
tolerate.  `pushPadded m []` is exactly the byte sequence of `Message::push`. -/
def Message.pushPadded (m : Message) (pad : List Nat) : List Nat :=
  be16 (m.headerLen + pad.length) ++ [m.data_type.value] ++ be16 m.data.length ++
    m.subheaderBytes ++ pad ++ m.data

/-- Wrapping `u16` subtraction: the semantics of `header_len -= k` in
`Message::pull` when overflow checks are off (release builds); debug builds
panic at the same spot. -/
def u16sub (a b : Nat) : Nat :=
  (a + 65536 - b) % 65536

/-- One byte via `read_exact` on a `[0u8; 1]` buffer. -/
def readU8 : List Nat → Except String (Nat × List Nat)
  | [] => Except.error "read_exact"
  | a :: rest => Except.ok (a, rest)

/-- A `u16` via `read_exact` on a `[0u8; 2]` buffer plus `u16::from_be_bytes`. -/
def readU16 : List Nat → Except String (Nat × List Nat)
  | a :: b :: rest => Except.ok (a * 256 + b, rest)
  | _ => Except.error "read_exact"

/-- `read_exact` into a buffer of `k` bytes. -/
def readBytes (k : Nat) (s : List Nat) : Except String (List Nat × List Nat) :=
  if k ≤ s.length then Except.ok (s.take k, s.drop k)
  else Except.error "read_exact"

/-- The subheader phase of `Message::pull` (src/message.rs lines 266-295):
for `Proxy`/`Connection` read `header_type`, `header_origin`, `header_id`
(decrementing the running `header_len` counter by 2 each) and conditionally
`header_proxy_type`; otherwise leave the fields at their `Message::new`
zeroes.  Returns the four fields, the updated counter, and the rest of the
stream. -/
def pullSubheaders (dt : DataType) (remaining : Nat) (s : List Nat) :
    Except String ((Nat × Nat × Nat × Nat) × Nat × List Nat) :=
  if dt.isSubheader then do
    let (ht, s) ← readU16 s
    let r1 := u16sub remaining 2
    let (ho, s) ← readU16 s
    let r2 := u16sub r1 2
    let (hid, s) ← readU16 s
    let r3 := u16sub r2 2
    if hasProxyTypeField ht then do
      let (hpt, s) ← readU16 s
      Except.ok ((ht, ho, hid, hpt), u16sub r3 2, s)
    else
      Except.ok ((ht, ho, hid, 0), r3, s)
  else
    Except.ok ((0, 0, 0, 0), remaining, s)

/-- The tail of `Message::pull` after the header fields are known
(src/message.rs lines 297-305): skip the counter's worth of surplus header
bytes when positive, then read `data_len` payload bytes and assemble the
frame. -/
def pullFinish (dt : DataType) (fields : Nat × Nat × Nat × Nat)
    (data_len remaining : Nat) (s : List Nat) :
    Except String (Message × List Nat) := do
  let (_surplus, s) ← if remaining > 0 then readBytes remaining s else Except.ok ([], s)
  let (dat, s) ← readBytes data_len s
  Except.ok ({ data_type := dt, data := dat, header_type := fields.1,
               header_origin := fields.2.1, header_id := fields.2.2.1,
               header_proxy_type := fields.2.2.2 }, s)

/-- The part of `Message::pull` after `header_len`, `data_type` and
`data_len` are read: the conditional subheaders, then `pullFinish`. -/
def pullTail (dt : DataType) (data_len remaining : Nat) (s : List Nat) :
    Except String (Message × List Nat) := do
  let (fields, remaining, s) ← pullSubheaders dt remaining s
  pullFinish dt fields data_len remaining s

/-- `Message::pull` (src/message.rs lines 242-306) on a byte stream: read
`header_len`, `data_type` (counter -= 1), `data_len` (counter -= 2), then the
conditional subheaders, surplus skip and payload via the stage functions
above.  Returns the frame and the unconsumed rest of the stream. -/
def Message.pull (s : List Nat) : Except String (Message × List Nat) := do
  let (hl, s) ← readU16 s
  let (dtb, s) ← readU8 s
  let dt := DataType.ofValue dtb
  let r1 := u16sub hl 1
  let (data_len, s) ← readU16 s
  let r2 := u16sub r1 2
  pullTail dt data_len r2 s

/-- A frame the codec can represent exactly: the payload fits `u16`, the
header fields fit `u16`, and a field the wire format does not carry for this
frame is at its `Message::new` zero (so nothing is silently lost). -/
def Message.wellFormed (m : Message) : Prop :=
  m.data.length ≤ 65535 ∧
  m.header_type < 65536 ∧ m.header_origin < 65536 ∧
  m.header_id < 65536 ∧ m.header_proxy_type < 65536 ∧
  (m.data_type.isSubheader = false →
    m.header_type = 0 ∧ m.header_origin = 0 ∧ m.header_id = 0 ∧
      m.header_proxy_type = 0) ∧
  (hasProxyTypeField m.header_type = false → m.header_proxy_type = 0)

instance (m : Message) : Decidable m.wellFormed := by
  unfold Message.wellFormed
  infer_instance

theorem u16sub_of_le (a b : Nat) (h1 : b ≤ a) (h2 : a < 65536) : u16sub a b = a - b := by
  unfold u16sub
  omega

theorem readU16_be16 (n : Nat) (rest : List Nat) (h : n < 65536) :
    readU16 (be16 n ++ rest) = Except.ok (n, rest) := by
  simp only [be16, List.cons_append, List.nil_append, readU16]
  congr 1
  have := Nat.div_add_mod n 256
  have : n / 256 < 256 := Nat.div_lt_of_lt_mul (by omega)
  congr 1
  omega

theorem readBytes_append (l rest : List Nat) :
    readBytes l.length (l ++ rest) = Except.ok (l, rest) := by
  simp [readBytes, List.take_left, List.drop_left]

theorem ofValue_value (dt : DataType) : DataType.ofValue dt.value = dt := by
  cases dt <;> rfl

theorem skip_step (k : Nat) (pad s : List Nat) (hk : pad.length = k) :
    (if k > 0 then readBytes k (pad ++ s) else Except.ok ([], pad ++ s)) =
      Except.ok (pad, s) := by
  subst hk
  cases pad with
  | nil => simp
  | cons p ps => simpa using readBytes_append (p :: ps) s

theorem ok_bind {a b : Type} (x : a) (f : a → Except String b) :
    (Except.ok x : Except String a) >>= f = f x := rfl

theorem pull_cons (h0 h1 db l0 l1 : Nat) (s : List Nat) :
    Message.pull (h0 :: h1 :: db :: l0 :: l1 :: s) =
      pullTail (DataType.ofValue db) (l0 * 256 + l1)
        (u16sub (u16sub (h0 * 256 + h1) 1) 2) s := rfl

theorem pull_be16 (n v k : Nat) (hn : n < 65536) (hk : k < 65536) (s : List Nat) :
    Message.pull (be16 n ++ v :: (be16 k ++ s)) =
      pullTail (DataType.ofValue v) k (u16sub (u16sub n 1) 2) s := by
  show Message.pull
      (n / 256 % 256 :: n % 256 :: v :: (k / 256 % 256) :: (k % 256) :: s) = _
  rw [pull_cons]
  have e1 : k / 256 % 256 * 256 + k % 256 = k := by omega
  have e2 : n / 256 % 256 * 256 + n % 256 = n := by omega
  rw [e1, e2]

theorem pullTail_none (dt : DataType) (h : dt.isSubheader = false)
    (dl r : Nat) (s : List Nat) :
    pullTail dt dl r s = pullFinish dt (0, 0, 0, 0) dl r s := by
  unfold pullTail pullSubheaders
  rw [h]
  rw [if_neg (by simp)]
  rfl

theorem pullTail_sub (dt : DataType) (h : dt.isSubheader = true)
    (dl r ht ho hid : Nat) (hht : ht < 65536) (hho : ho < 65536)
    (hhid : hid < 65536) (s : List Nat) (hf : hasProxyTypeField ht = false) :
    pullTail dt dl r (be16 ht ++ (be16 ho ++ (be16 hid ++ s))) =
      pullFinish dt (ht, ho, hid, 0) dl (u16sub (u16sub (u16sub r 2) 2) 2) s := by
  unfold pullTail pullSubheaders
  rw [h, if_pos rfl]
  rw [readU16_be16 _ _ hht]
  simp only [ok_bind]
  rw [readU16_be16 _ _ hho]
  simp only [ok_bind]
  rw [readU16_be16 _ _ hhid]
  simp only [ok_bind, hf, Bool.false_eq_true, if_false]

theorem pullTail_sub_pt (dt : DataType) (h : dt.isSubheader = true)
    (dl r ht ho hid hpt : Nat) (hht : ht < 65536) (hho : ho < 65536)
    (hhid : hid < 65536) (hhpt : hpt < 65536) (s : List Nat)
    (hf : hasProxyTypeField ht = true) :
    pullTail dt dl r (be16 ht ++ (be16 ho ++ (be16 hid ++ (be16 hpt ++ s)))) =
      pullFinish dt (ht, ho, hid, hpt) dl
        (u16sub (u16sub (u16sub (u16sub r 2) 2) 2) 2) s := by
  unfold pullTail pullSubheaders
  rw [h, if_pos rfl]
  rw [readU16_be16 _ _ hht]
  simp only [ok_bind]
  rw [readU16_be16 _ _ hho]
  simp only [ok_bind]
  rw [readU16_be16 _ _ hhid]
  simp only [ok_bind, hf, if_true]
  rw [readU16_be16 _ _ hhpt]
  simp only [ok_bind]

theorem pullFinish_skip (dt : DataType) (fields : Nat × Nat × Nat × Nat)
    (pad dat rest : List Nat) :
    pullFinish dt fields dat.length pad.length (pad ++ (dat ++ rest)) =
      Except.ok ({ data_type := dt, data := dat, header_type := fields.1,
                   header_origin := fields.2.1, header_id := fields.2.2.1,
                   header_proxy_type := fields.2.2.2 }, rest) := by
  unfold pullFinish
  cases pad with
  | nil =>
    rw [if_neg (by simp)]
    simp only [ok_bind, List.nil_append]
    rw [readBytes_append]
    rfl
  | cons p ps =>
    rw [if_pos (by simp)]
    rw [show readBytes (p :: ps).length ((p :: ps) ++ (dat ++ rest)) =
          Except.ok ((p :: ps), dat ++ rest) from readBytes_append _ _]
    simp only [ok_bind]
    rw [readBytes_append]
    rfl

theorem pull_pushPadded (m : Message) (pad rest : List Nat) (hwf : m.wellFormed)
    (hlen : m.headerLen + pad.length < 65536) :
    Message.pull (m.pushPadded pad ++ rest) = Except.ok (m, rest) := by
  obtain ⟨dt, dat, ht, ho, hid, hpt⟩ := m
  unfold Message.wellFormed at hwf
  dsimp only at hwf hlen
  obtain ⟨hdata, hht, hho, hhid, hhpt, hzero, hpzero⟩ := hwf
  simp only [Message.pushPadded, Message.headerLen, Message.subheaderBytes,
    List.append_assoc, List.cons_append, List.nil_append] at hlen ⊢
  dsimp only at hlen ⊢
  cases hsub : DataType.isSubheader dt with
  | false =>
    obtain ⟨h1, h2, h3, h4⟩ := hzero hsub
    subst h1; subst h2; subst h3; subst h4
    simp only [hsub, Bool.false_eq_true, if_false, Nat.add_zero, List.nil_append] at hlen ⊢
    rw [pull_be16 _ _ _ hlen (by omega)]
    rw [ofValue_value, pullTail_none dt hsub]
    have hr : u16sub (u16sub (3 + pad.length) 1) 2 = pad.length := by
      unfold u16sub; omega
    rw [hr, pullFinish_skip]
  | true =>
    simp only [hsub, if_true] at hlen ⊢
    cases hf : hasProxyTypeField ht with
    | false =>
      have h4 := hpzero hf
      subst h4
      simp only [hf, Bool.false_eq_true, if_false, Nat.add_zero, List.append_nil,
        List.append_assoc] at hlen ⊢
      rw [pull_be16 _ _ _ hlen (by omega)]
      rw [ofValue_value, pullTail_sub dt hsub _ _ ht ho hid hht hho hhid _ hf]
      have hr : u16sub (u16sub (u16sub (u16sub (u16sub (3 + 6 + pad.length) 1) 2) 2) 2) 2 =
          pad.length := by
        unfold u16sub; omega
      rw [hr, pullFinish_skip]
    | true =>
      simp only [hf, if_true, List.append_assoc] at hlen ⊢
      rw [pull_be16 _ _ _ hlen (by omega)]
      rw [ofValue_value, pullTail_sub_pt dt hsub _ _ ht ho hid hpt hht hho hhid hhpt _ hf]
      have hr : u16sub (u16sub (u16sub (u16sub (u16sub (u16sub (3 + (6 + 2) + pad.length) 1) 2)
          2) 2) 2) 2 = pad.length := by
        unfold u16sub; omega
      rw [hr, pullFinish_skip]

theorem push_eq_pushPadded (m : Message) (hdata : m.data.length ≤ 65535) :
    m.push = Except.ok (m.pushPadded []) := by
  simp [Message.push, Message.pushPadded, Nat.not_lt.mpr hdata]

/-- The fields of the `Control` struct of src/control.rs that the handshake
reads and writes (`message_data_size`, `shell`, `env`); the listener, TLS
acceptor and stream are the transport and stay outside the model. -/
structure Control where
  message_data_size : Nat
  shell : String
  env : List String
  deriving DecidableEq, Repr

/-- The field initialization of `Control::new` (src/control.rs lines 49-57):
`message_data_size = u16::MAX`, shell `/bin/sh`, env `PATH=/bin:/usr/bin/`. -/
def Control.new : Control :=
  { message_data_size := 65535, shell := "/bin/sh", env := ["PATH=/bin:/usr/bin/"] }

/-- What the peer supplies during `Control::negotiate_protocol`: its proto
major/minor and its proposed data size, each read as `u16 BE`. -/
structure PeerHello where
  peer_major : Nat
  peer_minor : Nat
  peer_data_size : Nat
  deriving DecidableEq, Repr

/-- Result of `Control::negotiate_protocol`: the control state after the call
(the Rust method mutates `&mut self`), the raw bytes it wrote to the stream,
and its `Result`. -/
structure NegotiationResult where
  control : Control
  sent : List Nat
  outcome : Except String Unit
  deriving Repr

/-- `Control::negotiate_protocol` (src/control.rs lines 132-175): write proto
major 1 and minor 0 and the control's own `message_data_size` (all u16 BE),
read the peer's proposal; bail if it is below 1024, otherwise lower
`message_data_size` to the proposal when the proposal is smaller.  The `bail!`
happens before the field update, so on failure the control is unchanged. -/
def negotiateProtocol (c : Control) (i : PeerHello) : NegotiationResult :=
  let sent := be16 1 ++ be16 0 ++ be16 c.message_data_size
  if i.peer_data_size < 1024 then
    { control := c, sent := sent, outcome := Except.error "Cant agree on a message size" }
  else
    { control := { c with message_data_size :=
        if i.peer_data_size < c.message_data_size then i.peer_data_size
        else c.message_data_size },
      sent := sent, outcome := Except.ok () }

/-- UTF-8 bytes of a Rust `str` (`as_bytes`); every string this program puts
on the wire is ASCII, so code points and UTF-8 bytes coincide. -/
def strBytes (s : String) : List Nat :=
  s.toList.map Char.toNat

/-- An `Init` frame as built by `Control::handle_client`:
`Message::new().data_type(DataType::Init).data(d)`. -/
def initMessage (d : List Nat) : Message :=
  { Message.new with data_type := DataType.Init, data := d }

/-- `Control::handle_client` (src/control.rs lines 84-130): run the
negotiation, then send the interactive `Init([0x01])`, pull one frame
(ignored), and send the shell, env (joined with single spaces) and terminal
size `Init` frames.  Returns the frames pushed after the negotiation and the
final control state; a failed negotiation propagates via `?` before any frame
is pushed. -/
def handleClient (c : Control) (i : PeerHello) (termW termH : Nat) :
    List Message × Except String Control :=
  let r := negotiateProtocol c i
  match r.outcome with
  | Except.error e => ([], Except.error e)
  | Except.ok _ =>
    ([initMessage [1],
      initMessage (strBytes r.control.shell),
      initMessage (strBytes (String.intercalate " " r.control.env)),
      initMessage (be16 termW ++ be16 termH)],
     Except.ok r.control)

/-- A `Tty` frame as built by `Broker::stdin_handler`
(src/broker.rs lines 118-122). -/
def ttyMessage (chunk : List Nat) : Message :=
  { Message.new with data_type := DataType.Tty, data := chunk }

/-- One iteration of the `Broker::stdin_handler` loop (src/broker.rs lines
115-123): read up to 1024 bytes from stdin into `buf`, then push one `Tty`
frame carrying `buf[..bytes_read]` — unconditionally, with no check that the
read returned any bytes. -/
def stdinStep (chunk : List Nat) : List Message :=
  [ttyMessage chunk]

/-- The `Proxy`/`Create` frame of `Broker::proxy_create`
(src/broker.rs lines 126-135). -/
def proxyCreateMessage (proxy_string : String) : Message :=
  { Message.new with
      data_type := DataType.Proxy,
      header_type := ProxyHeaderType.Create.value,
      header_proxy_type := ProxyType.Static.value,
      data := strBytes proxy_string }

/-- The `Connection`/`Create` frame of `Broker::connection_create`
(src/broker.rs lines 137-150). -/
def connectionCreateMessage (id : Nat) (connection_string : String) : Message :=
  { Message.new with
      data_type := DataType.Connection,
      header_type := ConnectionHeaderType.Create.value,
      header_id := id,
      data := strBytes connection_string }

/-- The `Connection`/`Data` frame of `Broker::connection_data`
(src/broker.rs lines 152-161). -/
def connectionDataMessage (id : Nat) (d : List Nat) : Message :=
  { Message.new with
      data_type := DataType.Connection,
      header_type := ConnectionHeaderType.Data.value,
      header_id := id,
      data := d }

/-- The `ProxyConnection` struct of src/broker.rs: a flow's local TCP write
half, as the broker sees it.  `broken` says whether `write_all` on the socket
fails (an external fact about the SOCKS peer); `written` is the log of
payloads successfully written so far. -/
structure ProxyConnection where
  broken : Bool
  written : List (List Nat)
  deriving DecidableEq, Repr

/-- The `proxy_connections` table: `HashMap<u16, ProxyConnection>` of
src/broker.rs, modelled as an association list with distinct keys. -/
abbrev FlowTable := List (Nat × ProxyConnection)

/-- `HashMap::get` on the flow table. -/
def tableGet (tbl : FlowTable) (id : Nat) : Option ProxyConnection :=
  match tbl with
  | [] => none
  | (k, f) :: rest => if k = id then some f else tableGet rest id

/-- `HashMap::remove` on the flow table. -/
def tableRemove (tbl : FlowTable) (id : Nat) : FlowTable :=
  match tbl with
  | [] => []
  | (k, f) :: rest => if k = id then tableRemove rest id else (k, f) :: tableRemove rest id

/-- The effect of `writer.write_all(&message.data)` on the flow with key
`id`: its log gains the payload; all other entries are untouched. -/
def tableWrite (tbl : FlowTable) (id : Nat) (d : List Nat) : FlowTable :=
  match tbl with
  | [] => []
  | (k, f) :: rest =>
    if k = id then (k, { broken := f.broken, written := f.written ++ [d] }) :: tableWrite rest id d
    else (k, f) :: tableWrite rest id d

/-- One iteration of the `Broker::message_handler` loop on a pulled frame
(src/broker.rs lines 64-92).  `Tty` goes to stdout and `Error` to stderr
(external sinks, modelled as succeeding); for `Connection` the handler looks
`header_id` up in the flow table — if present with an empty payload it removes
the flow, if present with a non-empty payload it calls `write_all` on the
flow's local writer whose I/O error propagates out of the handler via `?`,
and if absent it does nothing; every other type is logged and ignored.
Returns the flow table for the next iteration, or the propagated error. -/
def handleMessage (tbl : FlowTable) (m : Message) : Except String FlowTable :=
  match m.data_type with
  | DataType.Connection =>
    match tableGet tbl m.header_id with
    | some flow =>
      if m.data.isEmpty then Except.ok (tableRemove tbl m.header_id)
      else if flow.broken then Except.error "io error"
      else Except.ok (tableWrite tbl m.header_id m.data)
    | none => Except.ok tbl
  | _ => Except.ok tbl

/-- Dotted-decimal rendering of an IPv4 address, as `Ipv4Addr`'s `Display`
used by `format!` in `Broker::proxy_handler`. -/
def ipv4String (a b c d : Nat) : String :=
  toString a ++ "." ++ toString b ++ "." ++ toString c ++ "." ++ toString d

/-- `Broker::proxy_handler` (src/broker.rs lines 163-223) up to the SOCKS4
reply: read the version byte (must be 4), the command byte (must be 1), the
destination port (u16 BE), the four destination IPv4 octets and one trailing
byte; on success return the `Connection`/`Create` frame pushed to the tunnel
(its `header_id` is the flow id, the accepted local peer's ephemeral source
port as passed by `Broker::proxy_listener`) and the 8 reply bytes written
back to the local SOCKS peer.  A failed check errors before any frame is
built. -/
def proxyHandler (input : List Nat) (id : Nat) : Except String (Message × List Nat) := do
  let (version, s) ← readU8 input
  if version ≠ 4 then Except.error "Wrong socks version"
  else do
    let (command, s) ← readU8 s
    if command ≠ 1 then Except.error "Wrong command"
    else do
      let (dst_port, s) ← readU16 s
      let (o1, s) ← readU8 s
      let (o2, s) ← readU8 s
      let (o3, s) ← readU8 s
      let (o4, s) ← readU8 s
      let (_null_byte, _s) ← readU8 s
      let connection_string := ipv4String o1 o2 o3 o4 ++ ":" ++ toString dst_port
      Except.ok (connectionCreateMessage id connection_string,
        [0, 90] ++ be16 dst_port ++ [o1, o2, o3, o4])

theorem headerLen_le (m : Message) : m.headerLen ≤ 11 := by
  unfold Message.headerLen
  split_ifs <;> omega

theorem subheaderBytes_length (m : Message) :
    m.subheaderBytes.length = m.headerLen - 3 := by
  unfold Message.subheaderBytes Message.headerLen be16
  split_ifs <;> simp

theorem hasProxyTypeField_iff (ht : Nat) :
    hasProxyTypeField ht = true ↔ ht = 0 ∨ ht = 2 := by
  unfold hasProxyTypeField ProxyHeaderType.ofValue ConnectionHeaderType.ofValue
  split_ifs <;> simp_all

theorem be16_pair (p0 p1 : Nat) (hp0 : p0 < 256) (hp1 : p1 < 256) :
    be16 (p0 * 256 + p1) = [p0, p1] := by
  unfold be16
  have h1 : (p0 * 256 + p1) / 256 % 256 = p0 := by omega
  have h2 : (p0 * 256 + p1) % 256 = p1 := by omega
  rw [h1, h2]

theorem tableGet_remove (tbl : FlowTable) (id : Nat) :
    tableGet (tableRemove tbl id) id = none := by
  induction tbl with
  | nil => rfl
  | cons p rest ih =>
    obtain ⟨k, f⟩ := p
    by_cases hk : k = id
    · simpa [tableRemove, hk] using ih
    · simpa [tableRemove, hk, tableGet] using ih

theorem tableGet_write (tbl : FlowTable) (id : Nat) (d : List Nat)
    (flow : ProxyConnection) (h : tableGet tbl id = some flow) :
    tableGet (tableWrite tbl id d) id =
      some { broken := flow.broken, written := flow.written ++ [d] } := by
  induction tbl with
  | nil => simp [tableGet] at h
  | cons p rest ih =>
    obtain ⟨k, f⟩ := p
    by_cases hk : k = id
    · subst hk
      simp only [tableGet, if_pos rfl] at h
      injection h with h
      subst h
      simp [tableWrite, tableGet]
    · simp only [tableGet, if_neg hk] at h
      simp only [tableWrite, if_neg hk, tableGet]
      exact ih h

/-- C1 (counterexample): the claim says a Connection frame whose header_type
is Data (wire value 2) carries no `header_proxy_type` field.  But the codec
compares the raw u16 against both enum families, and 2 is also
`ProxyHeaderType::Report`, so the field IS emitted and read back: this
Connection/Data frame encodes with `header_len` 11 = 3 + 6 + 2, its wire form
ends with the two `header_proxy_type` bytes `[0, 5]`, and decoding recovers
`header_proxy_type = 5` — a value that can only have come off the wire. -/
theorem C1_counterexample :
    Message.push { Message.new with data_type := DataType.Connection, header_type := 2, header_id := 7, header_proxy_type := 5 } =
      Except.ok [0, 11, 4, 0, 0, 0, 2, 0, 0, 0, 7, 0, 5] ∧
    Message.pull [0, 11, 4, 0, 0, 0, 2, 0, 0, 0, 7, 0, 5] =
      Except.ok ({ Message.new with data_type := DataType.Connection, header_type := 2, header_id := 7, header_proxy_type := 5 }, []) ∧
    ConnectionHeaderType.ofValue 2 = ConnectionHeaderType.Data := by
  refine ⟨by rfl, by rfl, by rfl⟩

/-- C1 (amended): on both the emitting and the reading side, the three
subheader fields appear iff `data_type` is Proxy or Connection, and
`header_proxy_type` appears iff additionally the raw `header_type` value is 0
(`ProxyCreate`/`ConnectionCreate`) or 2 (`ProxyReport`, which is also the
wire value of `ConnectionData` — so a Connection frame whose header_type is
Data DOES carry the field).  The wire header is `header_len` bytes after the
2-byte length, and `header_len` is 11, 9 or 3 accordingly. -/
theorem C1_proxy_type_presence (m : Message) (bs : List Nat)
    (hp : m.push = Except.ok bs) :
    bs.length = 2 + m.headerLen + m.data.length ∧
    (hasProxyTypeField m.header_type = true ↔ m.header_type = 0 ∨ m.header_type = 2) ∧
    m.headerLen = (if m.data_type.isSubheader then
        (if m.header_type = 0 ∨ m.header_type = 2 then 11 else 9) else 3) := by
  refine ⟨?_, hasProxyTypeField_iff m.header_type, ?_⟩
  · unfold Message.push at hp
    split_ifs at hp
    injection hp with hp
    subst hp
    have hs := subheaderBytes_length m
    have hl := headerLen_le m
    have h3 : 3 ≤ m.headerLen := by unfold Message.headerLen; split_ifs <;> omega
    simp [be16]
    omega
  · unfold Message.headerLen
    rcases Bool.eq_false_or_eq_true m.data_type.isSubheader with hb | hb <;>
      rcases Bool.eq_false_or_eq_true (hasProxyTypeField m.header_type) with hf | hf <;>
        simp [hb, hf, (hasProxyTypeField_iff m.header_type).symm]

/-- C1 amended, discharged at the Connection/Data counterexample frame:
`header_len` is 11 and the presence condition holds at header_type 2. -/
theorem C1_proxy_type_presence_witness :
    ([0, 11, 4, 0, 0, 0, 2, 0, 0, 0, 7, 0, 5] : List Nat).length =
        2 + Message.headerLen { Message.new with data_type := DataType.Connection, header_type := 2, header_id := 7, header_proxy_type := 5 } +
          (({ Message.new with data_type := DataType.Connection, header_type := 2, header_id := 7, header_proxy_type := 5 } : Message).data).length ∧
      (hasProxyTypeField 2 = true ↔ (2 : Nat) = 0 ∨ (2 : Nat) = 2) ∧
      Message.headerLen { Message.new with data_type := DataType.Connection, header_type := 2, header_id := 7, header_proxy_type := 5 } =
        (if DataType.isSubheader DataType.Connection then (if (2 : Nat) = 0 ∨ (2 : Nat) = 2 then 11 else 9) else 3) :=
  C1_proxy_type_presence
    { Message.new with data_type := DataType.Connection, header_type := 2, header_id := 7, header_proxy_type := 5 }
    [0, 11, 4, 0, 0, 0, 2, 0, 0, 0, 7, 0, 5] (by rfl)

/-- C2: round trip of the frame codec.  For every well-formed frame (payload
at most 65535 bytes, header fields representable, absent-on-the-wire fields
at their `Message::new` zeroes), `push` succeeds with the unpadded encoding,
`pull` of that encoding returns the frame field-by-field with nothing left
over, and `pull` also returns the frame when surplus padding bytes accounted
for by `header_len` are injected between the known header fields and the
data. -/
theorem C2_roundtrip (m : Message) (pad : List Nat) (hwf : m.wellFormed)
    (hlen : m.headerLen + pad.length < 65536) :
    m.push = Except.ok (m.pushPadded []) ∧
    Message.pull (m.pushPadded []) = Except.ok (m, []) ∧
    Message.pull (m.pushPadded pad) = Except.ok (m, []) := by
  refine ⟨push_eq_pushPadded m hwf.1, ?_, ?_⟩
  · have h := pull_pushPadded m [] [] hwf (by have := headerLen_le m; simp; omega)
    simpa using h
  · have h := pull_pushPadded m pad [] hwf hlen
    simpa using h

/-- C2, discharged at a concrete Proxy/Create frame with payload `[10, 20]`
and three bytes of injected padding. -/
theorem C2_roundtrip_witness :
    Message.push { Message.new with data_type := DataType.Proxy, header_id := 3, data := [10, 20] } =
      Except.ok (Message.pushPadded { Message.new with data_type := DataType.Proxy, header_id := 3, data := [10, 20] } []) ∧
    Message.pull (Message.pushPadded { Message.new with data_type := DataType.Proxy, header_id := 3, data := [10, 20] } []) =
      Except.ok ({ Message.new with data_type := DataType.Proxy, header_id := 3, data := [10, 20] }, []) ∧
    Message.pull (Message.pushPadded { Message.new with data_type := DataType.Proxy, header_id := 3, data := [10, 20] } [7, 8, 9]) =
      Except.ok ({ Message.new with data_type := DataType.Proxy, header_id := 3, data := [10, 20] }, []) :=
  C2_roundtrip { Message.new with data_type := DataType.Proxy, header_id := 3, data := [10, 20] }
    [7, 8, 9] (by decide) (by decide)

/-- C3: during the handshake, after sending proto 1.0 and its own
`message_data_size` (initially 0xFFFF from `Control::new`), the control reads
the peer proposal: a proposal below 1024 makes `negotiate_protocol` fail and
`handle_client` then sends no frame at all on the session; otherwise the
negotiated size becomes the minimum of the control's own value and the
proposal. -/
theorem C3_negotiation (c : Control) (i : PeerHello) (termW termH : Nat) :
    (negotiateProtocol c i).sent = be16 1 ++ be16 0 ++ be16 c.message_data_size ∧
    Control.new.message_data_size = 65535 ∧
    (i.peer_data_size < 1024 →
      (negotiateProtocol c i).outcome = Except.error "Cant agree on a message size" ∧
      (handleClient c i termW termH).1 = []) ∧
    (1024 ≤ i.peer_data_size →
      (negotiateProtocol c i).outcome = Except.ok () ∧
      (negotiateProtocol c i).control.message_data_size =
        min c.message_data_size i.peer_data_size) := by
  by_cases h : i.peer_data_size < 1024
  · refine ⟨by simp [negotiateProtocol, h], rfl, fun _ => ⟨by simp [negotiateProtocol, h], ?_⟩,
      fun h2 => absurd h (by omega)⟩
    simp [handleClient, negotiateProtocol, h]
  · refine ⟨by simp [negotiateProtocol, h], rfl, fun h2 => absurd h2 h, fun _ =>
      ⟨by simp [negotiateProtocol, h], ?_⟩⟩
    simp only [negotiateProtocol, if_neg h]
    split_ifs <;> omega

/-- C3, discharged at the two concrete proposals 512 (rejected, no frames)
and 1024 (accepted, negotiated size 1024 = min 65535 1024). -/
theorem C3_negotiation_witness :
    ((negotiateProtocol Control.new { peer_major := 1, peer_minor := 0, peer_data_size := 512 }).outcome =
        Except.error "Cant agree on a message size" ∧
      (handleClient Control.new { peer_major := 1, peer_minor := 0, peer_data_size := 512 } 0 0).1 = []) ∧
    ((negotiateProtocol Control.new { peer_major := 1, peer_minor := 0, peer_data_size := 1024 }).outcome =
        Except.ok () ∧
      (negotiateProtocol Control.new { peer_major := 1, peer_minor := 0, peer_data_size := 1024 }).control.message_data_size =
        min Control.new.message_data_size 1024) :=
  ⟨(C3_negotiation Control.new { peer_major := 1, peer_minor := 0, peer_data_size := 512 } 0 0).2.2.1 (by decide),
   (C3_negotiation Control.new { peer_major := 1, peer_minor := 0, peer_data_size := 1024 } 0 0).2.2.2 (by decide)⟩

/-- C10: when the peer proposal is below 1024 the `bail!` fires before the
`message_data_size` update, so the stored field keeps its prior value
(initially 0xFFFF); a subsequent negotiation on the same control re-offers
exactly that prior size. -/
theorem C10_rejection_preserves_size (c : Control) (i i2 : PeerHello)
    (h : i.peer_data_size < 1024) :
    (negotiateProtocol c i).control = c ∧
    (negotiateProtocol c i).control.message_data_size = c.message_data_size ∧
    Control.new.message_data_size = 65535 ∧
    (negotiateProtocol (negotiateProtocol c i).control i2).sent =
      be16 1 ++ be16 0 ++ be16 c.message_data_size := by
  refine ⟨by simp [negotiateProtocol, h], by simp [negotiateProtocol, h], rfl, ?_⟩
  simp only [negotiateProtocol, if_pos h]
  split_ifs <;> rfl

/-- C10, discharged at the initial control state and a 512-byte proposal. -/
theorem C10_rejection_preserves_size_witness :
    (negotiateProtocol Control.new { peer_major := 1, peer_minor := 0, peer_data_size := 512 }).control = Control.new ∧
    (negotiateProtocol Control.new { peer_major := 1, peer_minor := 0, peer_data_size := 512 }).control.message_data_size =
      Control.new.message_data_size ∧
    Control.new.message_data_size = 65535 ∧
    (negotiateProtocol (negotiateProtocol Control.new { peer_major := 1, peer_minor := 0, peer_data_size := 512 }).control
        { peer_major := 1, peer_minor := 0, peer_data_size := 2048 }).sent =
      be16 1 ++ be16 0 ++ be16 Control.new.message_data_size :=
  C10_rejection_preserves_size Control.new { peer_major := 1, peer_minor := 0, peer_data_size := 512 }
    { peer_major := 1, peer_minor := 0, peer_data_size := 2048 } (by decide)

/-- C4 (counterexample): `Message::push` performs no check against the
negotiated `message_data_size` — it does not even receive it.  With a
legitimately negotiated size of 1024 (the minimum of 0xFFFF and a peer
proposal of 1024), the encoder still happily encodes a Tty frame whose
payload is 2048 bytes, twice the negotiated size. -/
theorem C4_counterexample :
    (negotiateProtocol Control.new { peer_major := 1, peer_minor := 0, peer_data_size := 1024 }).control.message_data_size = 1024 ∧
    (ttyMessage (List.replicate 2048 97)).data.length = 2048 ∧
    Message.push (ttyMessage (List.replicate 2048 97)) =
      Except.ok (Message.pushPadded (ttyMessage (List.replicate 2048 97)) []) := by
  refine ⟨by rfl, by simp [ttyMessage], push_eq_pushPadded _ (by simp [ttyMessage])⟩

/-- C4 (amended): the encoder rejects only payloads that do not fit in the
u16 `data_len` (over 65535 bytes); it performs no check against the
negotiated `message_data_size`.  The bound `data_len ≤ message_data_size`
nonetheless holds for the broker's chunked data frames — stdin `Tty` frames
and per-flow `Connection`/`Data` frames carry chunks of at most 1024 bytes
(the `[0u8; 1024]` read buffers), and a successful negotiation never leaves
`message_data_size` below 1024. -/
theorem C4_mtu_chunks (c : Control) (i : PeerHello) (chunk : List Nat) (id : Nat)
    (hc : 1024 ≤ c.message_data_size) (hpeer : 1024 ≤ i.peer_data_size)
    (hchunk : chunk.length ≤ 1024) :
    1024 ≤ (negotiateProtocol c i).control.message_data_size ∧
    (ttyMessage chunk).data.length ≤ (negotiateProtocol c i).control.message_data_size ∧
    (connectionDataMessage id chunk).data.length ≤
      (negotiateProtocol c i).control.message_data_size ∧
    (∀ m : Message, 65535 < m.data.length → m.push = Except.error "TryFromIntError") := by
  have hsz : 1024 ≤ (negotiateProtocol c i).control.message_data_size := by
    simp only [negotiateProtocol, if_neg (by omega : ¬ i.peer_data_size < 1024)]
    split_ifs <;> omega
  refine ⟨hsz, ?_, ?_, ?_⟩
  · simpa [ttyMessage] using le_trans hchunk hsz
  · simpa [connectionDataMessage] using le_trans hchunk hsz
  · intro m hm
    simp [Message.push, hm]

/-- C4 amended, discharged at the initial control, a peer proposal of 1024
and a full 1024-byte chunk. -/
theorem C4_mtu_chunks_witness :
    1024 ≤ (negotiateProtocol Control.new { peer_major := 1, peer_minor := 0, peer_data_size := 1024 }).control.message_data_size ∧
    (ttyMessage (List.replicate 1024 97)).data.length ≤
      (negotiateProtocol Control.new { peer_major := 1, peer_minor := 0, peer_data_size := 1024 }).control.message_data_size ∧
    (connectionDataMessage 54321 (List.replicate 1024 97)).data.length ≤
      (negotiateProtocol Control.new { peer_major := 1, peer_minor := 0, peer_data_size := 1024 }).control.message_data_size ∧
    (∀ m : Message, 65535 < m.data.length → m.push = Except.error "TryFromIntError") :=
  C4_mtu_chunks Control.new { peer_major := 1, peer_minor := 0, peer_data_size := 1024 } (List.replicate 1024 97)
    54321 (by decide) (by decide) (by simp)

/-- C5 (counterexample): the claim says an I/O error while writing an inbound
Connection payload to a flow's local writer is absorbed (flow removed, loop
keeps running).  In the code the `write_all(&message.data).await?` propagates
the error out of `message_handler`: with flow 1 present but its local socket
failing, the handler returns the error instead of an updated table — the flow
is not removed and the demultiplexer loop ends. -/
theorem C5_counterexample :
    handleMessage [(1, { broken := true, written := [] })]
        { Message.new with data_type := DataType.Connection, header_type := 2, header_id := 1, data := [65] } =
      Except.error "io error" := by
  rfl

/-- C5 (amended): a per-flow local-writer I/O error is NOT absorbed: it
propagates out of the inbound demultiplexer exactly like a transport error,
terminating the loop (and with it the broker); the flow stays in the table
and the remote is not notified. -/
theorem C5_flow_error_propagates (tbl : FlowTable) (m : Message)
    (flow : ProxyConnection) (hdt : m.data_type = DataType.Connection)
    (hget : tableGet tbl m.header_id = some flow)
    (hne : m.data ≠ []) (hbroken : flow.broken = true) :
    handleMessage tbl m = Except.error "io error" := by
  unfold handleMessage
  rw [hdt, hget]
  simp [hne, hbroken, List.isEmpty_iff]

/-- C5 amended, discharged at a one-flow table whose local socket fails. -/
theorem C5_flow_error_propagates_witness :
    handleMessage [(1, { broken := true, written := [] })]
        { Message.new with data_type := DataType.Connection, header_type := 2, header_id := 1, data := [66, 67] } =
      Except.error "io error" :=
  C5_flow_error_propagates [(1, { broken := true, written := [] })]
    { Message.new with data_type := DataType.Connection, header_type := 2, header_id := 1, data := [66, 67] }
    { broken := true, written := [] } (by rfl) (by rfl) (by simp) (by rfl)

/-- C6: dispatch of an inbound Connection frame by the demultiplexer.  If
`header_id` is in the flow table and the payload is empty, the handler
returns the table with that flow removed (so the id no longer resolves when
the next frame is handled); if present with a non-empty payload (and the
local socket healthy), the payload is appended to that flow's writer log; if
absent, the frame is dropped and the table returned unchanged. -/
theorem C6_connection_dispatch (tbl : FlowTable) (m : Message)
    (hdt : m.data_type = DataType.Connection) :
    (∀ flow, tableGet tbl m.header_id = some flow → m.data = [] →
      handleMessage tbl m = Except.ok (tableRemove tbl m.header_id) ∧
      tableGet (tableRemove tbl m.header_id) m.header_id = none) ∧
    (∀ flow, tableGet tbl m.header_id = some flow → m.data ≠ [] → flow.broken = false →
      handleMessage tbl m = Except.ok (tableWrite tbl m.header_id m.data) ∧
      tableGet (tableWrite tbl m.header_id m.data) m.header_id =
        some { broken := flow.broken, written := flow.written ++ [m.data] }) ∧
    (tableGet tbl m.header_id = none → handleMessage tbl m = Except.ok tbl) := by
  refine ⟨?_, ?_, ?_⟩
  · intro flow hget hempty
    constructor
    · unfold handleMessage
      rw [hdt, hget]
      simp [hempty]
    · exact tableGet_remove tbl m.header_id
  · intro flow hget hne hok
    constructor
    · unfold handleMessage
      rw [hdt, hget]
      simp [hne, hok, List.isEmpty_iff]
    · exact tableGet_write tbl m.header_id m.data flow hget
  · intro hget
    unfold handleMessage
    rw [hdt, hget]

/-- C6, discharged at the table holding flow 54321 with a healthy socket:
an empty-payload frame removes the flow (and lookups then miss); a
two-byte-payload frame appends to the flow's writer log; a frame for the
absent id 99 leaves the table unchanged. -/
theorem C6_connection_dispatch_witness :
    (handleMessage [(54321, { broken := false, written := [] })]
        { Message.new with data_type := DataType.Connection, header_type := 2, header_id := 54321 } =
      Except.ok (tableRemove [(54321, { broken := false, written := [] })] 54321) ∧
      tableGet (tableRemove [(54321, { broken := false, written := [] })] 54321) 54321 = none) ∧
    (handleMessage [(54321, { broken := false, written := [] })]
        { Message.new with data_type := DataType.Connection, header_type := 2, header_id := 54321, data := [66, 67] } =
      Except.ok (tableWrite [(54321, { broken := false, written := [] })] 54321 [66, 67]) ∧
      tableGet (tableWrite [(54321, { broken := false, written := [] })] 54321 [66, 67]) 54321 =
        some { broken := false, written := [[66, 67]] }) ∧
    (handleMessage [(54321, { broken := false, written := [] })]
        { Message.new with data_type := DataType.Connection, header_type := 2, header_id := 99 } =
      Except.ok [(54321, { broken := false, written := [] })]) :=
  ⟨(C6_connection_dispatch [(54321, { broken := false, written := [] })]
      { Message.new with data_type := DataType.Connection, header_type := 2, header_id := 54321 } (by rfl)).1
      { broken := false, written := [] } (by rfl) (by rfl),
   (C6_connection_dispatch [(54321, { broken := false, written := [] })]
      { Message.new with data_type := DataType.Connection, header_type := 2, header_id := 54321, data := [66, 67] } (by rfl)).2.1
      { broken := false, written := [] } (by rfl) (by simp) (by rfl),
   (C6_connection_dispatch [(54321, { broken := false, written := [] })]
      { Message.new with data_type := DataType.Connection, header_type := 2, header_id := 99 } (by rfl)).2.2 (by rfl)⟩

/-- C7: for every local SOCKS4 CONNECT request (version 4, command 1, u16 BE
destination port, four IPv4 octets, one trailing byte), `proxy_handler`
returns the `Connection`/`Create` frame whose `header_id` is the flow id —
the accepted peer's ephemeral source port, as `proxy_listener` passes
`address.port()` — and whose payload is the string `"<ipv4>:<port>"`,
together with exactly the 8 reply bytes `0x00, 0x5A, dst_port BE, dst_ipv4`;
a version byte other than 4 or a command byte other than 1 errors before any
frame is built. -/
theorem C7_socks4_connect (p0 p1 o1 o2 o3 o4 tb : Nat) (rest : List Nat)
    (id : Nat) (hp0 : p0 < 256) (hp1 : p1 < 256) :
    proxyHandler (4 :: 1 :: p0 :: p1 :: o1 :: o2 :: o3 :: o4 :: tb :: rest) id =
      Except.ok
        (connectionCreateMessage id (ipv4String o1 o2 o3 o4 ++ ":" ++ toString (p0 * 256 + p1)),
         [0, 90, p0, p1, o1, o2, o3, o4]) ∧
    (connectionCreateMessage id (ipv4String o1 o2 o3 o4 ++ ":" ++ toString (p0 * 256 + p1))).header_id = id ∧
    (∀ v s, v ≠ 4 → proxyHandler (v :: s) id = Except.error "Wrong socks version") ∧
    (∀ cb s, cb ≠ 1 → proxyHandler (4 :: cb :: s) id = Except.error "Wrong command") := by
  refine ⟨?_, by rfl, ?_, ?_⟩
  · unfold proxyHandler
    simp only [readU8, readU16, ok_bind, if_neg]
    rw [if_neg (by omega), if_neg (by omega)]
    simp only [ok_bind, be16_pair p0 p1 hp0 hp1]
    rfl
  · intro v s hv
    unfold proxyHandler
    simp only [readU8, ok_bind]
    rw [if_pos hv]
  · intro cb s hcb
    unfold proxyHandler
    simp only [readU8, ok_bind]
    rw [if_neg (by omega), if_pos hcb]

/-- C7, discharged at the literal scenario request
`04 01 01 BB 5D B8 D8 22 00` (CONNECT 93.184.216.34:443) with flow id
1234: frame payload "93.184.216.34:443", reply `00 5A 01 BB 5D B8 D8 22`. -/
theorem C7_socks4_connect_witness :
    proxyHandler (4 :: 1 :: 1 :: 187 :: 93 :: 184 :: 216 :: 34 :: 0 :: []) 1234 =
      Except.ok
        (connectionCreateMessage 1234 (ipv4String 93 184 216 34 ++ ":" ++ toString (1 * 256 + 187)),
         [0, 90, 1, 187, 93, 184, 216, 34]) ∧
    (connectionCreateMessage 1234 (ipv4String 93 184 216 34 ++ ":" ++ toString (1 * 256 + 187))).header_id = 1234 ∧
    proxyHandler (5 :: [1, 1, 187, 93, 184, 216, 34, 0]) 1234 = Except.error "Wrong socks version" ∧
    proxyHandler (4 :: 2 :: [1, 187, 93, 184, 216, 34, 0]) 1234 = Except.error "Wrong command" := by
  have h := C7_socks4_connect 1 187 93 184 216 34 0 [] 1234 (by decide) (by decide)
  exact ⟨h.1, h.2.1, h.2.2.1 5 [1, 1, 187, 93, 184, 216, 34, 0] (by decide),
    h.2.2.2 2 [1, 187, 93, 184, 216, 34, 0] (by decide)⟩

/-- C8 (counterexample): the claim says no frame is sent for an empty stdin
read.  The loop body of `stdin_handler` has no such check: it pushes
`buf[..bytes_read]` unconditionally, so a read of 0 bytes (end of stdin)
still sends one `Tty` frame with an empty payload, whose 5 wire bytes are
`[0, 3, 1, 0, 0]`. -/
theorem C8_counterexample :
    stdinStep [] = [ttyMessage []] ∧
    (stdinStep []).length = 1 ∧
    Message.push (ttyMessage []) = Except.ok [0, 3, 1, 0, 0] := by
  refine ⟨rfl, rfl, by rfl⟩

/-- C8 (amended): the forwarder reads stdin in chunks of at most 1024 bytes
(the buffer size) and sends exactly one `Tty` frame carrying the chunk for
EVERY read — the empty read included; the frame encodes and decodes back to
a `Tty` frame with exactly that payload. -/
theorem C8_tty_forwarding (chunk : List Nat) (h : chunk.length ≤ 1024) :
    stdinStep chunk = [ttyMessage chunk] ∧
    (ttyMessage chunk).data_type = DataType.Tty ∧
    (ttyMessage chunk).data = chunk ∧
    Message.pull (Message.pushPadded (ttyMessage chunk) []) =
      Except.ok (ttyMessage chunk, []) := by
  refine ⟨rfl, rfl, rfl, ?_⟩
  have hwf : (ttyMessage chunk).wellFormed := by
    refine ⟨by simpa [ttyMessage] using le_trans h (by omega), ?_, ?_, ?_, ?_, ?_, ?_⟩ <;>
      simp [ttyMessage, Message.new]
  have hp := pull_pushPadded (ttyMessage chunk) [] [] hwf
    (by have := headerLen_le (ttyMessage chunk); simp; omega)
  simpa using hp

/-- C8 amended, discharged at the three-byte chunk "ls\n" of the spec's
Tty-passthrough scenario. -/
theorem C8_tty_forwarding_witness :
    stdinStep [108, 115, 10] = [ttyMessage [108, 115, 10]] ∧
    (ttyMessage [108, 115, 10]).data_type = DataType.Tty ∧
    (ttyMessage [108, 115, 10]).data = [108, 115, 10] ∧
    Message.pull (Message.pushPadded (ttyMessage [108, 115, 10]) []) =
      Except.ok (ttyMessage [108, 115, 10], []) :=
  C8_tty_forwarding [108, 115, 10] (by decide)

/-- C9: the claim says the `header_len` bookkeeping in `Message::pull` never
underflows.  It does: the counter is a `u16` decremented by 1 and then 2
before any comparison, so an inbound frame with `header_len = 0` wraps the
counter to 65533 (release semantics; debug builds panic on the same
subtraction), and `pull` then demands 65533 surplus header bytes — it fails
with a short read on any tail shorter than that.  A Connection frame with
`header_len = 3` similarly wraps across the subheader decrements and demands
65530 surplus bytes. -/
theorem C9_header_len_wraps :
    u16sub (u16sub 0 1) 2 = 65533 ∧
    (∀ s : List Nat, s.length < 65533 →
      Message.pull (0 :: 0 :: 5 :: 0 :: 0 :: s) = Except.error "read_exact") ∧
    Message.pull [0, 3, 4, 0, 0, 0, 1, 0, 0, 0, 9] = Except.error "read_exact" := by
  refine ⟨by norm_num [u16sub], ?_, by rfl⟩
  intro s hs
  have h1 : readBytes 65533 s = Except.error "read_exact" := by
    unfold readBytes
    rw [if_neg (by omega)]
  change Except.bind (readBytes 65533 s) _ = _
  rw [h1]
  rfl

/-- C9, discharged at the empty tail: the five header-prefix bytes alone make
`pull` fail wanting 65533 more. -/
theorem C9_header_len_wraps_witness :
    ([] : List Nat).length < 65533 ∧
    Message.pull [0, 0, 5, 0, 0] = Except.error "read_exact" :=
  ⟨by decide, C9_header_len_wraps.2.1 [] (by decide)⟩
